import Mathlib

/-!
Shallow embedding of `src/main.ts` of the bsky-bot-with-image-upload
repository, together with theorems settling the specification claims.

Strings are modelled as Lean `String` (a wrapper around `List Char`),
where a `Char` stands for one JavaScript string element (code unit);
byte buffers as `List Nat` with every element `< 256`; the event-driven
stream and HTTP code as explicit traces / response records.
-/

namespace BskyBot

/-- JavaScript truthiness for an optional string value (such as
`process.env[...]` or `response.headers.location`): `undefined` and the
empty string are falsy, every other string is truthy. -/
def strTruthy : Option String → Bool
  | none => false
  | some s => s != ""

/-! ### Description post-processing (main.ts lines 136-140)

The source compares `imageDescription.length` against `maxGraphemes = 300`
and, when longer, replaces the description by `slice(0, maxGraphemes)`
followed by the three-character ellipsis marker. -/

def maxGraphemes : Nat := 300

/-- The truncation step applied to the description in `getPostText`. -/
def truncatePost (s : String) : String :=
  if s.length > maxGraphemes then String.mk (s.data.take maxGraphemes ++ "...".data) else s

/-! ### Image acquisition (main.ts lines 21-46)

`downloadImage` issues a GET; on a 302 with a (truthy) `location` header it
issues exactly one follow-up GET and saves the body of that response; on a 200 it
saves the body; otherwise it rejects with an error carrying the status code.
`saveImageToFile` pipes the response into a write stream; on `finish` it
closes the file and resolves, on `error` it unlinks the destination and then
rejects. -/

structure HttpResponse where
  statusCode : Nat
  location : Option String
  body : List Nat

/-- Observable outcome of one `downloadImage` call: the URLs of any follow-up
GET requests performed, the bytes saved to the destination (if any), and the
status code carried by the rejection error (if any). -/
structure DownloadResult where
  followUpRequests : List String
  saved : Option (List Nat)
  errorStatus : Option Nat
deriving DecidableEq, Repr

/-- `downloadImage` from main.ts; `fetchFollowUp` models what a second
`https.get` to a given URL would return. -/
def downloadImage (resp : HttpResponse) (fetchFollowUp : String → HttpResponse) :
    DownloadResult :=
  if resp.statusCode = 302 ∧ strTruthy resp.location then
    let loc := resp.location.getD ""
    { followUpRequests := [loc]
      saved := some (fetchFollowUp loc).body
      errorStatus := none }
  else if resp.statusCode = 200 then
    { followUpRequests := [], saved := some resp.body, errorStatus := none }
  else
    { followUpRequests := [], saved := none, errorStatus := some resp.statusCode }

/-- One observable event of `saveImageToFile`, in the order they happen. -/
inductive SaveEvent where
  | createWriteStream
  | pipeData
  | closeFile
  | unlink
  | resolve
  | reject
deriving DecidableEq, Repr

/-- Whether the write stream finished or reported an error. -/
inductive StreamOutcome where
  | finish
  | error (msg : String)

structure SaveResult where
  trace : List SaveEvent
  result : Except String Unit
  fileAtDest : Bool

/-- `saveImageToFile` from main.ts: on `finish` the file is closed and the
promise resolved; on a write-stream `error` the destination is unlinked and
only then is the promise rejected with the error. -/
def saveImageToFile : StreamOutcome → SaveResult
  | .finish =>
      { trace := [.createWriteStream, .pipeData, .closeFile, .resolve]
        result := .ok ()
        fileAtDest := true }
  | .error e =>
      { trace := [.createWriteStream, .pipeData, .unlink, .reject]
        result := .error e
        fileAtDest := false }

/-! ### Base64 encoding / decoding (main.ts lines 85-104)

`getImageDataUrl` reads the image file, base64-encodes the bytes
(the base64 mode of `Buffer.toString`) and wraps them in a
`data:image/<fmt>;base64,<payload>` URI. `convertDataURIToUint8Array`
splits the URI on the comma, decodes the payload with the `atob` builtin
and reads the resulting binary string back byte by byte. The encoder and
`atob` are platform builtins; they are modelled here by standard RFC 4648
base64 over byte lists. -/

def base64Alphabet : List Char :=
  "ABCDEFGHIJKLMNOPQRSTUVWXYZabcdefghijklmnopqrstuvwxyz0123456789+/".data

def base64Char (n : Nat) : Char := base64Alphabet.getD n 'A'

/-- The base64 mode of `Buffer.toString`: encode bytes three at a time into four
characters, padding a final group of one or two bytes with `=`. -/
def base64Encode : List Nat → List Char
  | [] => []
  | [b1] => [base64Char (b1 / 4), base64Char (b1 % 4 * 16), '=', '=']
  | [b1, b2] =>
      [base64Char (b1 / 4), base64Char (b1 % 4 * 16 + b2 / 16),
       base64Char (b2 % 16 * 4), '=']
  | b1 :: b2 :: b3 :: rest =>
      base64Char (b1 / 4) :: base64Char (b1 % 4 * 16 + b2 / 16) ::
      base64Char (b2 % 16 * 4 + b3 / 64) :: base64Char (b3 % 64) ::
      base64Encode rest

/-- Position of a character in the base64 alphabet, as used when decoding. -/
def base64Index (c : Char) : Nat := base64Alphabet.indexOf c

/-- Model of the `atob` builtin on well-formed base64 text (the only text the
program ever feeds it): decode four characters at a time into three bytes,
with `=` padding ending the input after one or two bytes. -/
def atob : List Char → List Nat
  | c1 :: c2 :: c3 :: c4 :: rest =>
      if c3 = '=' then
        [base64Index c1 * 4 + base64Index c2 / 16]
      else if c4 = '=' then
        [base64Index c1 * 4 + base64Index c2 / 16,
         base64Index c2 % 16 * 16 + base64Index c3 / 4]
      else
        (base64Index c1 * 4 + base64Index c2 / 16) ::
        (base64Index c2 % 16 * 16 + base64Index c3 / 4) ::
        (base64Index c3 % 4 * 64 + base64Index c4) ::
        atob rest
  | _ => []

/-- `String.split(',')` from JavaScript, on character lists. -/
def splitOnComma : List Char → List (List Char)
  | [] => [[]]
  | c :: rest =>
      if c = ',' then [] :: splitOnComma rest
      else
        match splitOnComma rest with
        | [] => [[c]]
        | g :: gs => (c :: g) :: gs

/-- The data URI built by `getImageDataUrl` from the bytes of the image file:
`data:image/<imageFormat>;base64,<base64 payload>`. -/
def getImageDataUrlString (bytes : List Nat) (imageFormat : String) : String :=
  "data:image/" ++ imageFormat ++ ";base64," ++ String.mk (base64Encode bytes)

/-- `convertDataURIToUint8Array` from main.ts: take the part of the URI after
the first comma, `atob` it, and collect the character codes as bytes. -/
def convertDataURIToUint8Array (dataURI : String) : List Nat :=
  atob ((splitOnComma dataURI.data).getD 1 [])

/-! ### Description generation (main.ts lines 48-94)

`getImageDescription` throws when the API token is missing, builds the data
URI via `getImageDataUrl` (whose `catch` branch calls `process.exit(1)` when
the file cannot be read), posts the chat request, and then inspects the
response: a non-"200" status together with an error object carrying a
`message` throws that message; a body without `choices` throws
"Unexpected response format"; a first choice with truthy (non-empty)
`message.content` is returned; otherwise "No description available." is
returned. Accessing `choices[0]` of an empty `choices` array raises a
TypeError, modelled as `crash`. -/

structure ErrObj where
  message : String

structure Choice where
  content : String

/-- The parts of the inference-service response `getImageDescription`
inspects: the status string, an optional error object with a message, and an
optional `choices` array whose entries carry `message.content`. -/
structure InfResponse where
  status : String
  error : Option ErrObj
  choices : Option (List Choice)

/-- How one step of the program ends: a resolved value, a thrown (catchable)
error, a `process.exit` with a code, or an uncaught runtime type error. -/
inductive Outcome where
  | ok (s : String)
  | thrown (msg : String)
  | exited (code : Nat)
  | crash
deriving DecidableEq, Repr

/-- The response-inspection portion of `getImageDescription`
(main.ts lines 71-82). -/
def handleInferenceResponse (r : InfResponse) : Outcome :=
  if r.status ≠ "200" ∧ r.error.isSome then
    .thrown ((r.error.getD ⟨""⟩).message)
  else
    match r.choices with
    | none => .thrown "Unexpected response format"
    | some [] => .crash
    | some (c :: _) =>
        if c.content != "" then .ok c.content else .ok "No description available."

/-- `getImageDataUrl` from main.ts: read the image file (`Except.error 1`
models `process.exit(1)` in its catch branch) and build the data URI. -/
def getImageDataUrl (fileContents : Option (List Nat)) (imageFormat : String) :
    Except Nat String :=
  match fileContents with
  | none => .error 1
  | some bytes => .ok (getImageDataUrlString bytes imageFormat)

/-- `getImageDescription` from main.ts: `token` is the `KEY_GITHUB_TOKEN`
environment value, `fileContents` the readable bytes of
`today/todays_image.jpg` (none = unreadable), `r` the inference response. -/
def getImageDescription (token : Option String) (fileContents : Option (List Nat))
    (r : InfResponse) : Outcome :=
  if strTruthy token = false then .thrown "Azure API token is not defined"
  else
    match getImageDataUrl fileContents "jpg" with
    | .error code => .exited code
    | .ok _ => handleInferenceResponse r

/-! ### Publication and orchestration (main.ts lines 106-183) -/

/-- Opaque reference to the blob returned by `agent.uploadBlob`. -/
structure Blob where
  ref : Nat
deriving DecidableEq, Repr

structure AspectRatio where
  width : Nat
  height : Nat
deriving DecidableEq, Repr

structure EmbeddedImage where
  alt : String
  image : Blob
  aspectRatio : AspectRatio
deriving DecidableEq, Repr

/-- The record passed to `agent.post` (main.ts lines 150-166). -/
structure Post where
  text : String
  embedType : String
  images : List EmbeddedImage
  createdAt : String
deriving DecidableEq, Repr

def imageUrl : String := "https://webkamera.atlas.vegvesen.no/public/kamera?id=0229009_1"

/-- The external world of one run: environment variables, whether
`downloadImage` resolves, the readable contents of the image file, the
inference response, the blob the posting service returns on upload, and the
ISO timestamp `new Date().toISOString()` produces at post creation. -/
structure PipelineEnv where
  token : Option String
  bskyHandle : Option String
  bskyPassword : Option String
  downloadOk : Bool
  fileContents : Option (List Nat)
  infResponse : InfResponse
  blob : Blob
  now : String

/-- Observable trace of one `getPostText` call: its outcome and which of the
later steps actually ran, with the data they were given. -/
structure RunTrace where
  outcome : Outcome
  downloadAttempted : Bool
  descriptionAttempted : Bool
  loginPerformed : Bool
  uploadedBytes : Option (List Nat)
  createdPost : Option Post

/-- `getPostText` from main.ts: check the Bluesky credentials, download the
image (a failure is caught and returns the placeholder
"Error downloading the image."), get the description (a caught failure
returns "Error getting image description."; `process.exit` is not an
exception and passes through), truncate it, log in, upload the decoded image
bytes as a blob and create the post. -/
def getPostText (env : PipelineEnv) : RunTrace :=
  if (strTruthy env.bskyHandle && strTruthy env.bskyPassword) = false then
    { outcome := .thrown "Bluesky handle or password is not defined"
      downloadAttempted := false, descriptionAttempted := false
      loginPerformed := false, uploadedBytes := none, createdPost := none }
  else if env.downloadOk = false then
    { outcome := .ok "Error downloading the image."
      downloadAttempted := true, descriptionAttempted := false
      loginPerformed := false, uploadedBytes := none, createdPost := none }
  else
    match getImageDescription env.token env.fileContents env.infResponse with
    | .exited code =>
        { outcome := .exited code
          downloadAttempted := true, descriptionAttempted := true
          loginPerformed := false, uploadedBytes := none, createdPost := none }
    | .thrown _ =>
        { outcome := .ok "Error getting image description."
          downloadAttempted := true, descriptionAttempted := true
          loginPerformed := false, uploadedBytes := none, createdPost := none }
    | .crash =>
        { outcome := .ok "Error getting image description."
          downloadAttempted := true, descriptionAttempted := true
          loginPerformed := false, uploadedBytes := none, createdPost := none }
    | .ok rawDesc =>
        let desc := truncatePost (if rawDesc = "" then "No description available." else rawDesc)
        match getImageDataUrl env.fileContents "jpg" with
        | .error code =>
            { outcome := .exited code
              downloadAttempted := true, descriptionAttempted := true
              loginPerformed := true, uploadedBytes := none, createdPost := none }
        | .ok uri =>
            { outcome := .ok (desc ++ "\n![Image](" ++ imageUrl ++ ")")
              downloadAttempted := true, descriptionAttempted := true
              loginPerformed := true
              uploadedBytes := some (convertDataURIToUint8Array uri)
              createdPost := some
                { text := desc
                  embedType := "app.bsky.embed.images"
                  images := [{ alt := desc, image := env.blob
                               aspectRatio := { width := 1000, height := 500 } }]
                  createdAt := env.now } }

/-- How the whole process ends. -/
inductive MainOutcome where
  | completedNormally
  | exitedWith (code : Nat)
deriving DecidableEq, Repr

/-- `main` from main.ts: await `getPostText`, log, and catch any thrown
error; a `process.exit` is not catchable and ends the process with its
code. -/
def mainRun (env : PipelineEnv) : MainOutcome :=
  match (getPostText env).outcome with
  | .exited code => .exitedWith code
  | _ => .completedNormally

/-! ### Concrete sample inputs for witnesses and counterexamples -/

/-- A 301-character description, long enough to be truncated. -/
def longSample : String := String.mk (List.replicate 301 'a')

/-- An inference response with one non-empty generated choice. -/
def goodInfResponse : InfResponse :=
  { status := "200", error := none, choices := some [⟨"A cat on a bridge."⟩] }

/-- A run in which everything succeeds: credentials present, download
resolves, image file readable, inference returns a description. -/
def envAllOk : PipelineEnv :=
  { token := some "tok", bskyHandle := some "handle", bskyPassword := some "pw"
    downloadOk := true, fileContents := some [88]
    infResponse := goodInfResponse, blob := ⟨7⟩
    now := "2026-10-12T00:00:00.000Z" }

/-- A run in which the image download rejects. -/
def envDownloadFail : PipelineEnv :=
  { envAllOk with downloadOk := false }

/-- A run in which the inference service reports an error. -/
def envDescFail : PipelineEnv :=
  { envAllOk with infResponse := { status := "500", error := some ⟨"boom"⟩, choices := none } }

/-- A run in which the image file cannot be read back. -/
def envUnreadableFile : PipelineEnv :=
  { envAllOk with fileContents := none }

/-- A run with the Bluesky handle absent from the environment. -/
def envMissingHandle : PipelineEnv :=
  { envAllOk with bskyHandle := none }

/-! ### Helper lemmas about the base64 model -/

theorem base64Index_base64Char : ∀ n < 64, base64Index (base64Char n) = n := by decide

theorem base64Char_ne_eq : ∀ n < 64, base64Char n ≠ '=' := by decide

theorem base64Char_ne_comma (n : Nat) : base64Char n ≠ ',' := by
  by_cases hn : n < 64
  · revert n
    decide
  · unfold base64Char
    rw [List.getD_eq_default]
    · decide
    · have hlen : base64Alphabet.length = 64 := by decide
      omega

theorem comma_not_mem_base64Encode : ∀ bs : List Nat, ',' ∉ base64Encode bs
  | [] => by simp [base64Encode]
  | [b1] => by
      simp only [base64Encode, List.mem_cons, List.not_mem_nil, or_false]
      push_neg
      exact ⟨(base64Char_ne_comma _).symm, (base64Char_ne_comma _).symm,
             by decide, by decide⟩
  | [b1, b2] => by
      simp only [base64Encode, List.mem_cons, List.not_mem_nil, or_false]
      push_neg
      exact ⟨(base64Char_ne_comma _).symm, (base64Char_ne_comma _).symm,
             (base64Char_ne_comma _).symm, by decide⟩
  | b1 :: b2 :: b3 :: rest => by
      simp only [base64Encode, List.mem_cons]
      push_neg
      refine ⟨(base64Char_ne_comma _).symm, (base64Char_ne_comma _).symm,
              (base64Char_ne_comma _).symm, (base64Char_ne_comma _).symm, ?_⟩
      exact comma_not_mem_base64Encode rest

theorem atob_base64Encode : ∀ bs : List Nat, (∀ b ∈ bs, b < 256) →
    atob (base64Encode bs) = bs
  | [], _ => rfl
  | [b1], h => by
      have hb1 : b1 < 256 := h b1 (by simp)
      simp only [base64Encode, atob, reduceIte]
      rw [base64Index_base64Char _ (by omega), base64Index_base64Char _ (by omega)]
      simp only [List.cons.injEq, and_true]
      omega
  | [b1, b2], h => by
      have hb1 : b1 < 256 := h b1 (by simp)
      have hb2 : b2 < 256 := h b2 (by simp)
      simp only [base64Encode, atob, if_neg (base64Char_ne_eq (b2 % 16 * 4) (by omega)),
        reduceIte]
      rw [base64Index_base64Char _ (by omega), base64Index_base64Char _ (by omega),
        base64Index_base64Char _ (by omega)]
      simp only [List.cons.injEq, and_true]
      constructor <;> omega
  | b1 :: b2 :: b3 :: rest, h => by
      have hb1 : b1 < 256 := h b1 (by simp)
      have hb2 : b2 < 256 := h b2 (by simp)
      have hb3 : b3 < 256 := h b3 (by simp)
      have ih := atob_base64Encode rest (fun b hb => h b (by simp [hb]))
      simp only [base64Encode, atob,
        if_neg (base64Char_ne_eq (b2 % 16 * 4 + b3 / 64) (by omega)),
        if_neg (base64Char_ne_eq (b3 % 64) (by omega))]
      rw [base64Index_base64Char _ (by omega), base64Index_base64Char _ (by omega),
        base64Index_base64Char _ (by omega), base64Index_base64Char _ (by omega), ih]
      simp only [List.cons.injEq, and_true]
      refine ⟨by omega, by omega, by omega⟩

theorem splitOnComma_of_not_mem (l : List Char) (h : ',' ∉ l) :
    splitOnComma l = [l] := by
  induction l with
  | nil => rfl
  | cons c rest ih =>
      have hc : c ≠ ',' := fun e => h (e ▸ List.mem_cons_self c rest)
      have hrest : ',' ∉ rest := fun m => h (List.mem_cons_of_mem _ m)
      simp only [splitOnComma, if_neg hc, ih hrest]

theorem splitOnComma_append (a b : List Char) (ha : ',' ∉ a) :
    splitOnComma (a ++ ',' :: b) = a :: splitOnComma b := by
  induction a with
  | nil => simp [splitOnComma]
  | cons c a' ih =>
      have hc : c ≠ ',' := fun e => ha (e ▸ List.mem_cons_self c a')
      have ha' : ',' ∉ a' := fun m => ha (List.mem_cons_of_mem _ m)
      simp only [List.cons_append, splitOnComma, if_neg hc, List.append_eq, ih ha']

/-- The characters of the data URI built for format "jpg" are the fixed
prefix, the comma, then the base64 payload. -/
theorem getImageDataUrlString_jpg_data (bytes : List Nat) :
    (getImageDataUrlString bytes "jpg").data =
      "data:image/jpg;base64".data ++ ',' :: base64Encode bytes := rfl

/-- Decoding the data URI recovers exactly the encoded bytes. -/
theorem convert_getImageDataUrl_roundtrip (bytes : List Nat)
    (h : ∀ b ∈ bytes, b < 256) :
    convertDataURIToUint8Array (getImageDataUrlString bytes "jpg") = bytes := by
  unfold convertDataURIToUint8Array
  rw [getImageDataUrlString_jpg_data,
    splitOnComma_append _ _ (by decide),
    splitOnComma_of_not_mem _ (comma_not_mem_base64Encode bytes)]
  simpa using atob_base64Encode bytes h

/-! ### Helper lemmas about the pipeline -/

/-- On a fully successful run, `getPostText` performs every step and creates
the post built from the truncated description. -/
theorem getPostText_success (env : PipelineEnv) (bytes : List Nat) (s : String)
    (hh : strTruthy env.bskyHandle = true) (hp : strTruthy env.bskyPassword = true)
    (hd : env.downloadOk = true) (ht : strTruthy env.token = true)
    (hf : env.fileContents = some bytes)
    (hr : handleInferenceResponse env.infResponse = .ok s) :
    getPostText env =
      { outcome := .ok (truncatePost (if s = "" then "No description available." else s) ++
          "\n![Image](" ++ imageUrl ++ ")")
        downloadAttempted := true, descriptionAttempted := true
        loginPerformed := true
        uploadedBytes := some (convertDataURIToUint8Array (getImageDataUrlString bytes "jpg"))
        createdPost := some
          { text := truncatePost (if s = "" then "No description available." else s)
            embedType := "app.bsky.embed.images"
            images := [{ alt := truncatePost (if s = "" then "No description available." else s)
                         image := env.blob
                         aspectRatio := { width := 1000, height := 500 } }]
            createdAt := env.now } } := by
  have hdesc : getImageDescription env.token (some bytes) env.infResponse = .ok s := by
    simp [getImageDescription, ht, getImageDataUrl, hr]
  simp [getPostText, hh, hp, hd, hf, hdesc, getImageDataUrl]

/-! ### Claim theorems -/

/-- C1: the description post-processing is pure on strings: a string of
length at most 300 is returned unchanged, and a longer string yields a
string of length exactly 303 whose first 300 characters are the first 300
characters of the input and which ends with the three-character ellipsis
marker. -/
theorem truncatePost_spec (s : String) :
    (s.length ≤ 300 → truncatePost s = s) ∧
    (s.length > 300 →
      (truncatePost s).length = 303 ∧
      (truncatePost s).data.take 300 = s.data.take 300 ∧
      "...".data <:+ (truncatePost s).data) := by
  constructor
  · intro h
    simp only [truncatePost, maxGraphemes]
    rw [if_neg (by omega)]
  · intro h
    have hlen : s.data.length = s.length := rfl
    simp only [truncatePost, maxGraphemes, if_pos h]
    refine ⟨?_, ?_, ?_⟩
    · show (s.data.take 300 ++ "...".data).length = 303
      simp [List.length_take]
      omega
    · show (s.data.take 300 ++ "...".data).take 300 = s.data.take 300
      rw [List.take_append_of_le_length (by simp [List.length_take]; omega),
        List.take_take]
      simp
    · exact List.suffix_append _ _

set_option maxRecDepth 8192 in
/-- C1 witness: a short string is returned unchanged and a 301-character
string is truncated to 303 characters ending in the ellipsis marker. -/
theorem truncatePost_spec_witness :
    truncatePost "abc" = "abc" ∧
    ((truncatePost longSample).length = 303 ∧
     (truncatePost longSample).data.take 300 = longSample.data.take 300 ∧
     "...".data <:+ (truncatePost longSample).data) :=
  ⟨(truncatePost_spec "abc").1 (by decide), (truncatePost_spec longSample).2 (by decide)⟩

/-- C2 counterexample: when the download fails, the caught failure becomes
the placeholder text, but the later steps do not proceed: no login, no blob
upload and no post creation happen. -/
theorem getPostText_earlyFailure_cex :
    (getPostText envDownloadFail).outcome = .ok "Error downloading the image." ∧
    (getPostText envDownloadFail).loginPerformed = false ∧
    (getPostText envDownloadFail).uploadedBytes = none ∧
    (getPostText envDownloadFail).createdPost = none := by decide

/-- C2 (amended): a failure in image acquisition or description generation
is caught and converted into a descriptive placeholder string, but
`getPostText` returns that placeholder immediately as the final text of the
run: blob upload and post creation are skipped, not run on the placeholder. -/
theorem earlyFailure_placeholder_spec (env : PipelineEnv)
    (hh : strTruthy env.bskyHandle = true) (hp : strTruthy env.bskyPassword = true) :
    (env.downloadOk = false →
      getPostText env =
        { outcome := .ok "Error downloading the image."
          downloadAttempted := true, descriptionAttempted := false
          loginPerformed := false, uploadedBytes := none, createdPost := none }) ∧
    (∀ m, env.downloadOk = true →
      getImageDescription env.token env.fileContents env.infResponse = .thrown m →
      getPostText env =
        { outcome := .ok "Error getting image description."
          downloadAttempted := true, descriptionAttempted := true
          loginPerformed := false, uploadedBytes := none, createdPost := none }) := by
  constructor
  · intro hd
    simp [getPostText, hh, hp, hd]
  · intro m hd hdesc
    simp [getPostText, hh, hp, hd, hdesc]

/-- C2 witness: the download-failure and description-failure placeholders at
concrete runs. -/
theorem earlyFailure_placeholder_spec_witness :
    getPostText envDownloadFail =
      { outcome := .ok "Error downloading the image."
        downloadAttempted := true, descriptionAttempted := false
        loginPerformed := false, uploadedBytes := none, createdPost := none } ∧
    getPostText envDescFail =
      { outcome := .ok "Error getting image description."
        downloadAttempted := true, descriptionAttempted := true
        loginPerformed := false, uploadedBytes := none, createdPost := none } :=
  ⟨(earlyFailure_placeholder_spec envDownloadFail rfl rfl).1 rfl,
   (earlyFailure_placeholder_spec envDescFail rfl rfl).2 "boom" rfl (by decide)⟩

/-- C3 counterexample: status 201 is a success status, yet the download is
not saved; it fails with an error carrying the status code. -/
theorem downloadImage_success_status_cex :
    200 ≤ 201 ∧ 201 < 300 ∧
    downloadImage ⟨201, none, [1, 2, 3]⟩ (fun _ => ⟨200, none, []⟩) =
      { followUpRequests := [], saved := none, errorStatus := some 201 } := by
  refine ⟨by omega, by omega, by decide⟩

/-- C3 (amended): on a 302 response with a non-empty Location header exactly
one follow-up GET is performed and its body saved; on a response with status
exactly 200 the body is saved; any other response (other success statuses
such as 201 included, and a 302 without a usable Location) fails with an
error carrying the status code. -/
theorem downloadImage_spec (resp : HttpResponse) (fetchFollowUp : String → HttpResponse) :
    (∀ loc, resp.statusCode = 302 → resp.location = some loc → loc ≠ "" →
      downloadImage resp fetchFollowUp =
        { followUpRequests := [loc], saved := some (fetchFollowUp loc).body
          errorStatus := none }) ∧
    (resp.statusCode = 200 →
      downloadImage resp fetchFollowUp =
        { followUpRequests := [], saved := some resp.body, errorStatus := none }) ∧
    (¬(resp.statusCode = 302 ∧ strTruthy resp.location = true) →
      resp.statusCode ≠ 200 →
      downloadImage resp fetchFollowUp =
        { followUpRequests := [], saved := none, errorStatus := some resp.statusCode }) := by
  refine ⟨?_, ?_, ?_⟩
  · intro loc h302 hloc hne
    simp [downloadImage, h302, hloc, strTruthy, hne]
  · intro h200
    simp [downloadImage, h200]
  · intro hcond h200
    simp only [downloadImage]
    rw [if_neg (by simpa using hcond), if_neg h200]

/-- C3 witness: a 302 with Location is followed once and the redirected body
saved; a 200 body is saved; a 404 fails carrying the status code. -/
theorem downloadImage_spec_witness :
    downloadImage ⟨302, some "https://r.example/a.jpg", []⟩ (fun _ => ⟨200, none, [9, 8]⟩) =
      { followUpRequests := ["https://r.example/a.jpg"], saved := some [9, 8]
        errorStatus := none } ∧
    downloadImage ⟨200, none, [1, 2]⟩ (fun _ => ⟨200, none, []⟩) =
      { followUpRequests := [], saved := some [1, 2], errorStatus := none } ∧
    downloadImage ⟨404, none, []⟩ (fun _ => ⟨200, none, []⟩) =
      { followUpRequests := [], saved := none, errorStatus := some 404 } :=
  ⟨(downloadImage_spec _ _).1 "https://r.example/a.jpg" rfl rfl (by decide),
   (downloadImage_spec _ _).2.1 rfl,
   (downloadImage_spec _ _).2.2 (by decide) (by decide)⟩

/-- C4: on a write-stream error the partially written destination file is
deleted, and the operation rejects with the error only after the unlink: the
unlink strictly precedes the rejection in the event trace and no file
remains at the destination. -/
theorem saveImageToFile_error_spec (e : String) :
    (saveImageToFile (.error e)).result = .error e ∧
    (saveImageToFile (.error e)).fileAtDest = false ∧
    (saveImageToFile (.error e)).trace.indexOf SaveEvent.unlink <
      (saveImageToFile (.error e)).trace.indexOf SaveEvent.reject ∧
    SaveEvent.reject ∈ (saveImageToFile (.error e)).trace := by
  have htr : (saveImageToFile (.error e)).trace =
      [.createWriteStream, .pipeData, .unlink, .reject] := rfl
  refine ⟨rfl, rfl, ?_, ?_⟩
  · rw [htr]
    decide
  · rw [htr]
    decide

/-- C5: when the inference response signals a non-success status and carries
an error object with a message field, the description step fails with an
error whose message is exactly that message field. -/
theorem getImageDescription_error_message_spec (token : Option String)
    (bytes : List Nat) (r : InfResponse) (em : ErrObj)
    (ht : strTruthy token = true)
    (hs : r.status ≠ "200") (he : r.error = some em) :
    getImageDescription token (some bytes) r = .thrown em.message := by
  simp [getImageDescription, ht, getImageDataUrl, handleInferenceResponse, hs, he]

/-- C5 witness: a mocked 429 response whose error message is
"rate limited" makes the step fail with exactly that message. -/
theorem getImageDescription_error_message_witness :
    getImageDescription (some "tok") (some [1])
      { status := "429", error := some ⟨"rate limited"⟩, choices := none } =
      .thrown "rate limited" :=
  getImageDescription_error_message_spec _ _ _ _ (by decide) (by decide) rfl

/-- C6: on a well-formed (status "200") inference response, a first choice
with non-empty content is returned as is; a body without a choices field
fails with the generic format error; and a first choice with empty content
yields the fixed fallback string. -/
theorem getImageDescription_response_spec (token : Option String) (bytes : List Nat)
    (r : InfResponse) (ht : strTruthy token = true) (hs : r.status = "200") :
    (∀ c rest, r.choices = some (c :: rest) → c.content ≠ "" →
      getImageDescription token (some bytes) r = .ok c.content) ∧
    (r.choices = none →
      getImageDescription token (some bytes) r = .thrown "Unexpected response format") ∧
    (∀ c rest, r.choices = some (c :: rest) → c.content = "" →
      getImageDescription token (some bytes) r = .ok "No description available.") := by
  refine ⟨?_, ?_, ?_⟩
  · intro c rest hch hne
    simp [getImageDescription, ht, getImageDataUrl, handleInferenceResponse, hs, hch, hne]
  · intro hch
    simp [getImageDescription, ht, getImageDataUrl, handleInferenceResponse, hs, hch]
  · intro c rest hch hemp
    simp [getImageDescription, ht, getImageDataUrl, handleInferenceResponse, hs, hch, hemp]

/-- C6 witness: the three response shapes at concrete mocked responses. -/
theorem getImageDescription_response_witness :
    getImageDescription (some "tok") (some [1]) goodInfResponse = .ok "A cat on a bridge." ∧
    getImageDescription (some "tok") (some [1])
      { status := "200", error := none, choices := none } =
      .thrown "Unexpected response format" ∧
    getImageDescription (some "tok") (some [1])
      { status := "200", error := none, choices := some [⟨""⟩] } =
      .ok "No description available." :=
  ⟨(getImageDescription_response_spec (some "tok") [1] goodInfResponse
      (by decide) rfl).1 ⟨"A cat on a bridge."⟩ [] rfl (by decide),
   (getImageDescription_response_spec (some "tok") [1] _ (by decide) rfl).2.1 rfl,
   (getImageDescription_response_spec (some "tok") [1] _ (by decide) rfl).2.2 ⟨""⟩ [] rfl rfl⟩

/-- C7: on a run in which every external call succeeds, with final truncated
description D, the created post has body text D and exactly one embedded
image, whose alt text is the same D, whose aspect ratio is width 1000 and
height 500, and whose creation timestamp is the current ISO timestamp. -/
theorem getPostText_post_structure (env : PipelineEnv) (bytes : List Nat) (s : String)
    (hh : strTruthy env.bskyHandle = true) (hp : strTruthy env.bskyPassword = true)
    (hd : env.downloadOk = true) (ht : strTruthy env.token = true)
    (hf : env.fileContents = some bytes)
    (hr : handleInferenceResponse env.infResponse = .ok s) :
    (getPostText env).createdPost = some
      { text := truncatePost (if s = "" then "No description available." else s)
        embedType := "app.bsky.embed.images"
        images := [{ alt := truncatePost (if s = "" then "No description available." else s)
                     image := env.blob
                     aspectRatio := { width := 1000, height := 500 } }]
        createdAt := env.now } := by
  rw [getPostText_success env bytes s hh hp hd ht hf hr]

/-- C7 witness: with all calls mocked to succeed and description
"A cat on a bridge.", the post text and the single embedded image alt both
equal that string, with aspect ratio 1000 by 500. -/
theorem getPostText_post_structure_witness :
    (getPostText envAllOk).createdPost = some
      { text := "A cat on a bridge."
        embedType := "app.bsky.embed.images"
        images := [{ alt := "A cat on a bridge.", image := ⟨7⟩
                     aspectRatio := { width := 1000, height := 500 } }]
        createdAt := "2026-10-12T00:00:00.000Z" } := by
  have h := getPostText_post_structure envAllOk [88] "A cat on a bridge."
    rfl rfl rfl rfl rfl (by decide)
  rw [h]
  decide

/-- C8 counterexample: on a run in which the image file cannot be read back,
the failure path inside `getImageDataUrl` terminates the process with exit
status 1, not by normal completion. -/
theorem mainRun_exit_cex :
    mainRun envUnreadableFile = .exitedWith 1 ∧
    mainRun envUnreadableFile ≠ .completedNormally := by decide

/-- C8 (amended): every failure that reaches the top-level invocation as a
thrown error is caught and logged and the process ends by normal completion;
but the unreadable-image failure path inside `getImageDataUrl` calls the
process-exit primitive with status 1, which bypasses the top-level catch and
ends the process with a non-zero exit status. -/
theorem mainRun_spec :
    (∀ (env : PipelineEnv) (m : String),
      (getPostText env).outcome = .thrown m → mainRun env = .completedNormally) ∧
    (∀ env : PipelineEnv,
      strTruthy env.bskyHandle = true → strTruthy env.bskyPassword = true →
      env.downloadOk = true → strTruthy env.token = true →
      env.fileContents = none → mainRun env = .exitedWith 1) := by
  constructor
  · intro env m h
    simp [mainRun, h]
  · intro env hh hp hd ht hf
    simp [mainRun, getPostText, hh, hp, hd, getImageDescription, ht, hf, getImageDataUrl]

/-- C8 witness: a thrown configuration error is swallowed with normal
completion, and the unreadable-file run exits with status 1. -/
theorem mainRun_spec_witness :
    mainRun envMissingHandle = .completedNormally ∧
    mainRun envUnreadableFile = .exitedWith 1 :=
  ⟨mainRun_spec.1 envMissingHandle "Bluesky handle or password is not defined" (by decide),
   mainRun_spec.2 envUnreadableFile rfl rfl rfl rfl rfl⟩

/-- C9 counterexample: with the Bluesky handle absent, the configuration
error is thrown before image acquisition and description generation are even
attempted, not at the publication step after them. -/
theorem missing_creds_cex :
    (getPostText envMissingHandle).outcome =
      .thrown "Bluesky handle or password is not defined" ∧
    (getPostText envMissingHandle).downloadAttempted = false ∧
    (getPostText envMissingHandle).descriptionAttempted = false ∧
    (getPostText envMissingHandle).loginPerformed = false := by decide

/-- C9 (amended): when the posting-service account identifier or secret is
absent (or empty), `getPostText` throws the fatal configuration error at its
start, before image acquisition, description generation and login, at run
time rather than at process startup. -/
theorem missing_creds_spec (env : PipelineEnv)
    (h : strTruthy env.bskyHandle = false ∨ strTruthy env.bskyPassword = false) :
    getPostText env =
      { outcome := .thrown "Bluesky handle or password is not defined"
        downloadAttempted := false, descriptionAttempted := false
        loginPerformed := false, uploadedBytes := none, createdPost := none } := by
  rcases h with h | h <;> simp [getPostText, h]

/-- C9 witness: the missing-handle run throws the configuration error with
nothing attempted. -/
theorem missing_creds_spec_witness :
    getPostText envMissingHandle =
      { outcome := .thrown "Bluesky handle or password is not defined"
        downloadAttempted := false, descriptionAttempted := false
        loginPerformed := false, uploadedBytes := none, createdPost := none } :=
  missing_creds_spec envMissingHandle (Or.inl rfl)

/-- C10: encoding the stored image bytes into a base64 data URI and decoding
that URI back, as done before the blob upload, yields exactly the original
bytes; hence on a successful run the bytes uploaded to the posting service
equal the bytes of the stored image file. -/
theorem dataUri_roundtrip_spec :
    (∀ bytes : List Nat, (∀ b ∈ bytes, b < 256) →
      convertDataURIToUint8Array (getImageDataUrlString bytes "jpg") = bytes) ∧
    (∀ (env : PipelineEnv) (bytes : List Nat) (s : String),
      (∀ b ∈ bytes, b < 256) →
      strTruthy env.bskyHandle = true → strTruthy env.bskyPassword = true →
      env.downloadOk = true → strTruthy env.token = true →
      env.fileContents = some bytes →
      handleInferenceResponse env.infResponse = .ok s →
      (getPostText env).uploadedBytes = some bytes) := by
  constructor
  · exact convert_getImageDataUrl_roundtrip
  · intro env bytes s h256 hh hp hd ht hf hr
    rw [getPostText_success env bytes s hh hp hd ht hf hr]
    simp [convert_getImageDataUrl_roundtrip bytes h256]

/-- C10 witness: the round trip on concrete bytes, and the uploaded bytes of
the all-success run equal the stored file bytes. -/
theorem dataUri_roundtrip_spec_witness :
    convertDataURIToUint8Array (getImageDataUrlString [0, 77, 128, 255] "jpg") =
      [0, 77, 128, 255] ∧
    (getPostText envAllOk).uploadedBytes = some [88] :=
  ⟨dataUri_roundtrip_spec.1 [0, 77, 128, 255] (by decide),
   dataUri_roundtrip_spec.2 envAllOk [88] "A cat on a bridge."
     (by decide) rfl rfl rfl rfl rfl (by decide)⟩

end BskyBot
